import Mathlib

/-!
Shallow embedding of the scoring-and-compliance engine of the Building
Society Health Analysis Dashboard (src/config.py, src/utils.py,
src/calculations.py, src/compliance.py, src/ml_models.py).

Numbers are modelled as exact rationals (ℚ).  A pandas cell that may hold
NaN is modelled by the sum type `NumVal` (resp. `SVal` for string cells,
`DateVal` for date strings, `BVal` for boolean-ish cells); a column that
may be absent from the row is wrapped in `Option`.  Date parsing
(`pd.to_datetime(..., errors=coerce)`) is modelled by storing, next to the
raw string, its parse result as `Option Int` (days since an arbitrary
epoch; `none` models NaT).  `datetime.now()` is an explicit `today : Int`
parameter of the compliance checker, in the same day units.
-/

namespace BHD

/-- A numeric pandas cell: either NaN or an exact rational value. -/
inductive NumVal where
  | nanN : NumVal
  | numN : ℚ → NumVal
deriving DecidableEq, Repr

/-- A string pandas cell: either NaN or a string. -/
inductive SVal where
  | nanS : SVal
  | strS : String → SVal
deriving DecidableEq, Repr

/-- A date-string pandas cell: NaN, or a raw string together with the
result of `pd.to_datetime(s, errors=coerce)` (`none` = NaT, `some d` =
a date, measured in whole days since an arbitrary epoch). -/
inductive DateVal where
  | nanD : DateVal
  | strD : String → Option Int → DateVal
deriving DecidableEq, Repr

/-- A boolean-ish pandas cell: a Python bool or a string
(`compliance.py` dispatches on `isinstance(x, str)`). -/
inductive BVal where
  | boolB : Bool → BVal
  | strB : String → BVal
deriving DecidableEq, Repr

/-- `building.get(key, default)` for a numeric column: absent key gives the
numeric default. -/
def getNum (cell : Option NumVal) (dflt : ℚ) : NumVal :=
  cell.getD (NumVal.numN dflt)

/-- The `if pd.isna(x): x = repl` pattern: replace NaN by `repl`. -/
def NumVal.resolveNa (v : NumVal) (repl : ℚ) : ℚ :=
  match v with
  | .nanN => repl
  | .numN q => q

/-- `x == 0` on a pandas cell (NaN compares unequal to 0). -/
def NumVal.eqZero (v : NumVal) : Bool :=
  match v with
  | .nanN => false
  | .numN q => q = 0

/-- One row of the buildings table (the columns the engine reads).
`empty` models `pd.Series.empty` for the `if building.empty` guards. -/
structure Building where
  empty : Bool := false
  building_id : String := ""
  monthly_maintenance_expected : Option NumVal := none
  monthly_maintenance_collected : Option NumVal := none
  year_built : Option NumVal := none
  total_flats : Option NumVal := none
  current_fund : Option NumVal := none
  reserve_fund : Option NumVal := none
  structural_audit_rating : Option SVal := none
  last_fire_safety : Option DateVal := none
  last_annual_inspection : Option DateVal := none
  waste_segregation_implemented : Option BVal := none
  sewage_system_approved : Option BVal := none
deriving Repr

/-- One row of the residents table (the columns the engine reads). -/
structure Resident where
  building_id : String
  maintenance_due_amount : NumVal
  owner_or_tenant : String
  avg_monthly_income : String
  education_level : String
deriving Repr

/-- One row of the transactions table (the columns the engine reads). -/
structure Transaction where
  building_id : String
  transaction_type : String
  category : String
  amount : ℚ
deriving Repr

/-- One row of the repairs table (the columns the engine reads). -/
structure Repair where
  building_id : String
  status : String
  severity : String
deriving Repr

/-! ## config.py -/

/-- `CURRENT_YEAR = datetime.now().year`, fixed at module load. -/
def CURRENT_YEAR : ℚ := 2026

/-- `MIN_RESERVE_PER_FLAT_PER_YEAR = 500`. -/
def MIN_RESERVE_PER_FLAT_PER_YEAR : ℚ := 500

/-- `BHI_WEIGHTS` dictionary lookup. -/
def BHI_WEIGHTS (k : String) : ℚ :=
  if k = "financial" then 0.5
  else if k = "structural" then 0.3
  else if k = "people" then 0.2
  else 0

/-- `FINANCIAL_WEIGHTS` dictionary lookup. -/
def FINANCIAL_WEIGHTS (k : String) : ℚ :=
  if k = "collection_rate" then 0.4
  else if k = "reserve_ratio" then 0.4
  else if k = "payment_punctuality" then 0.2
  else 0

/-- `STRUCTURAL_WEIGHTS` dictionary lookup. -/
def STRUCTURAL_WEIGHTS (k : String) : ℚ :=
  if k = "age" then 0.2
  else if k = "audit_rating" then 0.5
  else if k = "repairs" then 0.3
  else 0

/-- `PEOPLE_WEIGHTS` dictionary lookup. -/
def PEOPLE_WEIGHTS (k : String) : ℚ :=
  if k = "payment_punctuality" then 0.5
  else if k = "owner_ratio" then 0.2
  else if k = "socio_economic" then 0.3
  else 0

/-- `INCOME_SCORE_MAP.get` composed with `.fillna(0)`: unmapped → 0. -/
def INCOME_SCORE_MAP (k : String) : ℚ :=
  if k = "Low" then 30 else if k = "Medium" then 70
  else if k = "High" then 100 else 0

/-- `EDUCATION_SCORE_MAP.get` composed with `.fillna(0)`: unmapped → 0. -/
def EDUCATION_SCORE_MAP (k : String) : ℚ :=
  if k = "High School" then 50 else if k = "Graduate" then 80
  else if k = "Post-Graduate" then 100 else 0

/-- `AUDIT_RATING_MAP.get(key, 0)`. -/
def AUDIT_RATING_MAP (k : String) : ℚ :=
  if k = "A" then 100 else if k = "B" then 80 else if k = "C" then 50
  else if k = "D" then 20 else if k = "F" then 0 else 0

/-- `BHI_COLOR_THRESHOLDS` dictionary lookup. -/
def BHI_COLOR_THRESHOLDS (k : String) : ℚ :=
  if k = "green" then 80 else if k = "orange" then 50 else 0

/-! ## utils.py -/

/-- `calculate_bhi` from utils.py. -/
def calculate_bhi (financial_score structural_score people_score : ℚ) : ℚ :=
  let bhi :=
    financial_score * BHI_WEIGHTS "financial" +
    structural_score * BHI_WEIGHTS "structural" +
    people_score * BHI_WEIGHTS "people"
  max 0 (min 100 bhi)

/-- `get_bhi_color` from utils.py. -/
def get_bhi_color (bhi : ℚ) : String :=
  if bhi ≥ BHI_COLOR_THRESHOLDS "green" then "green"
  else if bhi ≥ BHI_COLOR_THRESHOLDS "orange" then "orange"
  else "red"

/-! ## calculations.py -/

/-- The `details` dictionary returned by `calculate_financial_health`
(the `Expense Distribution` entry is the per-category sum of expense
amounts; pandas `groupby` key ordering is not modelled — categories are
listed in first-occurrence order). -/
structure FinancialDetails where
  collection_rate : ℚ
  total_funds : ℚ
  required_reserve : ℚ
  reserve_ratio : ℚ
  payment_punctuality : ℚ
  expense_distribution : List (String × ℚ)
deriving Repr

/-- `calculate_financial_health` from calculations.py.  Returns the score
and the details dictionary (`none` models the `{}` of the
`building.empty` early return). -/
def calculate_financial_health (building : Building)
    (transactions_df : List Transaction) (residents_df : List Resident) :
    ℚ × Option FinancialDetails :=
  if building.empty then (0, none) else
  -- 1. Collection Rate
  let monthly_expected := (getNum building.monthly_maintenance_expected 0).resolveNa 0
  let monthly_collected := (getNum building.monthly_maintenance_collected 0).resolveNa 0
  let collection_rate :=
    if monthly_expected = 0 then 0 else (monthly_collected / monthly_expected) * 100
  -- 2. Reserve Ratio
  let current_fund := (getNum building.current_fund 0).resolveNa 0
  let reserve_fund := (getNum building.reserve_fund 0).resolveNa 0
  let year_built := (getNum building.year_built 0).resolveNa CURRENT_YEAR
  let total_flats := (getNum building.total_flats 0).resolveNa 0
  let total_funds := current_fund + reserve_fund
  let rr : ℚ × ℚ :=
    if year_built ≤ 0 ∨ total_flats ≤ 0 then (1, 0)
    else
      let age := CURRENT_YEAR - year_built
      let required_reserve := total_flats * MIN_RESERVE_PER_FLAT_PER_YEAR * max 1 age
      (required_reserve, if required_reserve > 0 then total_funds / required_reserve else 0)
  let required_reserve := rr.1
  let reserve_ratio := rr.2
  let reserve_ratio_score := min 100 (reserve_ratio * 100)
  -- 3. Payment Punctuality
  let building_residents := residents_df.filter (fun r => r.building_id = building.building_id)
  let total_flats_for_calc := (getNum building.total_flats 0).resolveNa 0
  let payment_punctuality :=
    if ¬building_residents.isEmpty ∧ total_flats_for_calc > 0 then
      let flats_with_no_dues :=
        (building_residents.filter (fun r => r.maintenance_due_amount.eqZero)).length
      ((flats_with_no_dues : ℚ) / total_flats_for_calc) * 100
    else 0
  -- 4. Expense Distribution (for detailed view)
  let building_expenses := transactions_df.filter (fun t =>
    t.building_id = building.building_id ∧ t.transaction_type = "Expense")
  let expense_dist := ((building_expenses.map (fun t => t.category)).dedup).map
    (fun c => (c, ((building_expenses.filter (fun t => t.category = c)).map
      (fun t => t.amount)).sum))
  -- Final Score (Weighted Average)
  let financial_score :=
    collection_rate * FINANCIAL_WEIGHTS "collection_rate" +
    reserve_ratio_score * FINANCIAL_WEIGHTS "reserve_ratio" +
    payment_punctuality * FINANCIAL_WEIGHTS "payment_punctuality"
  (max 0 (min 100 financial_score),
   some { collection_rate := collection_rate
          total_funds := total_funds
          required_reserve := required_reserve
          reserve_ratio := reserve_ratio
          payment_punctuality := payment_punctuality
          expense_distribution := expense_dist })

/-- The `details` dictionary returned by `calculate_structural_health`
(the display-only `Audit Rating` and `Repair Log` entries are omitted). -/
structure StructuralDetails where
  building_age : ℚ
  open_issues : ℕ
  high_severity_issues : ℕ
deriving Repr

/-- `str(x).upper()` on a rating string (character-wise upper-casing,
written over the character list so it reduces definitionally). -/
def strUpper (s : String) : String := String.mk (s.data.map Char.toUpper)

/-- `calculate_structural_health` from calculations.py. -/
def calculate_structural_health (building : Building) (repairs_df : List Repair) :
    ℚ × Option StructuralDetails :=
  if building.empty then (0, none) else
  -- 1. Age Score
  let yb := getNum building.year_built 0
  let aa : ℚ × ℚ :=
    match yb with
    | .nanN => (0, 0)
    | .numN y =>
      if y ≤ 0 then (0, 0)
      else (CURRENT_YEAR - y, max 0 (100 - (CURRENT_YEAR - y) * 1.5))
  let age := aa.1
  let age_score := aa.2
  -- 2. Structural Audit Rating Score
  let audit_rating := building.structural_audit_rating.getD (SVal.strS "")
  let audit_rating_score :=
    match audit_rating with
    | .nanS => 0
    | .strS s => if s = "" then 0 else AUDIT_RATING_MAP (strUpper s)
  -- 3. Repairs Score
  let building_repairs := repairs_df.filter (fun r => r.building_id = building.building_id)
  let num_open_issues := (building_repairs.filter (fun r => r.status = "Open")).length
  let num_high_severity := (building_repairs.filter (fun r =>
    r.status = "Open" ∧ r.severity = "High")).length
  let repair_score :=
    max 0 (100 - (num_open_issues : ℚ) * 5 - (num_high_severity : ℚ) * 20)
  -- Final Score (Weighted Average)
  let structural_score :=
    age_score * STRUCTURAL_WEIGHTS "age" +
    audit_rating_score * STRUCTURAL_WEIGHTS "audit_rating" +
    repair_score * STRUCTURAL_WEIGHTS "repairs"
  (max 0 (min 100 structural_score),
   some { building_age := age
          open_issues := num_open_issues
          high_severity_issues := num_high_severity })

/-- The `details` dictionary returned by `calculate_people_score`
(the display-only `Resident Details` entry is omitted). -/
structure PeopleDetails where
  payment_punctuality : ℚ
  owner_tenant_ratio : ℚ
  avg_income_score : ℚ
  avg_education_score : ℚ
deriving Repr

/-- `calculate_people_score` from calculations.py. -/
def calculate_people_score (building : Building) (residents_df : List Resident) :
    ℚ × Option PeopleDetails :=
  if building.empty then (0, none) else
  let building_residents := residents_df.filter (fun r => r.building_id = building.building_id)
  if building_residents.isEmpty then (0, none) else
  -- 1. Payment Punctuality (re-calculated here for direct use)
  let total_flats_for_calc := (getNum building.total_flats 0).resolveNa 0
  let flats_with_no_dues :=
    (building_residents.filter (fun r => r.maintenance_due_amount.eqZero)).length
  let payment_punctuality :=
    if total_flats_for_calc > 0 then
      ((flats_with_no_dues : ℚ) / total_flats_for_calc) * 100
    else 0
  -- 2. Ownership Ratio
  let num_owners := (building_residents.filter (fun r => r.owner_or_tenant = "Owner")).length
  let owner_ratio :=
    if total_flats_for_calc > 0 then ((num_owners : ℚ) / total_flats_for_calc) * 100
    else 0
  -- 3. Socio-Economic Score
  let income_scores := building_residents.map (fun r => INCOME_SCORE_MAP r.avg_monthly_income)
  let edu_scores := building_residents.map (fun r => EDUCATION_SCORE_MAP r.education_level)
  let avg_income_score := income_scores.sum / (building_residents.length : ℚ)
  let avg_edu_score := edu_scores.sum / (building_residents.length : ℚ)
  let socio_economic_score := avg_income_score * 0.6 + avg_edu_score * 0.4
  -- Final Score (Weighted Average)
  let people_score :=
    payment_punctuality * PEOPLE_WEIGHTS "payment_punctuality" +
    owner_ratio * PEOPLE_WEIGHTS "owner_ratio" +
    socio_economic_score * PEOPLE_WEIGHTS "socio_economic"
  (max 0 (min 100 people_score),
   some { payment_punctuality := payment_punctuality
          owner_tenant_ratio := owner_ratio
          avg_income_score := avg_income_score
          avg_education_score := avg_edu_score })

/-! ## compliance.py -/

/-- Status of one compliance-rule outcome (the source decorates these
with emoji: "✅ Pass", "❌ Fail", "⚠️ Error"). -/
inductive RuleStatus where
  | pass : RuleStatus
  | fail : RuleStatus
  | error : RuleStatus
deriving DecidableEq, Repr

/-- One entry of the `results` list of `check_nmmc_compliance`. -/
structure Outcome where
  rule : String
  status : RuleStatus
  details : String
deriving DecidableEq, Repr

/-- The `parameters` object of a rule (`min_ratio` is the only key the
evaluator reads; `none` models an absent key, whose lookup raises
`KeyError`). -/
structure RuleParams where
  min_ratio : Option ℚ
deriving Repr

/-- One entry of `rules[rules]` (`parameters = none` models an absent
`parameters` key, whose lookup raises `KeyError`). -/
structure Rule where
  id : String
  description : String
  parameters : Option RuleParams
deriving Repr

/-- The body of the per-rule loop of `check_nmmc_compliance`, up to the
`try` boundary: computes `(condition_met, details)`, or the message of a
raised exception (`KeyError` on the `parameters` / `min_ratio` lookups of
the RESERVE_FUND branch; Python renders the key name in quotes, which is
not modelled).  `financial_details` is the `Reserve Ratio` entry of the
financial-details dictionary when present (`.get` defaults it to 0);
`today` is `datetime.now()` in days. -/
def evalRuleExcept (building : Building) (financial_details : Option ℚ)
    (today : Int) (rule : Rule) : Except String (Bool × String) :=
  if rule.id = "FIRE_SAFETY" then
    match building.last_fire_safety.getD (DateVal.strD "" none) with
    | .nanD => .ok (false, "No fire safety inspection date found.")
    | .strD s parsed =>
      if s = "" then .ok (false, "No fire safety inspection date found.")
      else
        match parsed with
        | none => .ok (false, "Invalid date format: " ++ s)
        | some d =>
          let days_diff := today - d
          .ok (decide (days_diff ≤ 365 ∧ days_diff ≥ 0),
               "Last inspection: " ++ toString d ++ " (" ++ toString days_diff ++ " days ago)")
  else if rule.id = "STRUCT_AUDIT" then
    match building.last_annual_inspection.getD (DateVal.strD "" none) with
    | .nanD => .ok (false, "No structural audit date found.")
    | .strD s parsed =>
      if s = "" then .ok (false, "No structural audit date found.")
      else
        match parsed with
        | none => .ok (false, "Invalid date format: " ++ s)
        | some d =>
          -- Rule: Older buildings need more frequent checks
          let year_built := (getNum building.year_built CURRENT_YEAR).resolveNa CURRENT_YEAR
          let age := CURRENT_YEAR - year_built
          let required_days : Int := if age > 15 then 365 else 365 * 3
          let days_since := today - d
          .ok (decide (days_since ≤ required_days ∧ days_since ≥ 0),
               "Last audit: " ++ toString d ++ " (" ++ toString days_since ++
                 " days ago). Required every " ++ toString required_days ++ " days.")
  else if rule.id = "RESERVE_FUND" then
    match rule.parameters with
    | none => .error "parameters"
    | some p =>
      match p.min_ratio with
      | none => .error "min_ratio"
      | some target =>
        let reserve_ratio := financial_details.getD 0
        .ok (decide (reserve_ratio ≥ target),
             "Current Ratio: " ++ toString reserve_ratio ++ ", Target: " ++ toString target)
  else if rule.id = "WASTE_SEGREGATION" then
    -- Check boolean column - handle both string and boolean types
    match building.waste_segregation_implemented.getD (BVal.boolB false) with
    | .strB s =>
      .ok (decide (s.toLower = "true" ∨ s.toLower = "1" ∨ s.toLower = "yes"),
           "Based on society records.")
    | .boolB b => .ok (b, "Based on society records.")
  else if rule.id = "SEWAGE_SYSTEM" then
    -- Check boolean column - handle both string and boolean types
    match building.sewage_system_approved.getD (BVal.boolB false) with
    | .strB s =>
      .ok (decide (s.toLower = "true" ∨ s.toLower = "1" ∨ s.toLower = "yes"),
           "Based on NMMC approval records.")
    | .boolB b => .ok (b, "Based on NMMC approval records.")
  else
    -- no branch matches: condition_met and details keep their initial values
    .ok (false, "")

/-- One iteration of the per-rule loop, including the `except` handler:
turns the evaluation into the appended `results` entry. -/
def evalOutcome (building : Building) (financial_details : Option ℚ)
    (today : Int) (rule : Rule) : Outcome :=
  match evalRuleExcept building financial_details today rule with
  | .ok (true, d) => { rule := rule.description, status := .pass, details := d }
  | .ok (false, d) => { rule := rule.description, status := .fail, details := d }
  | .error e =>
    { rule := rule.description, status := .error
      details := "Could not check rule: " ++ e }

/-- `check_nmmc_compliance` from compliance.py.  `rules = none` models a
falsy `rules` dictionary (the `if not rules` early return); `some rs`
models a dictionary whose `rules` key holds the list `rs`. -/
def check_nmmc_compliance (building : Building) (rules : Option (List Rule))
    (financial_details : Option ℚ) (today : Int) : ℚ × List Outcome :=
  match rules with
  | none => (0, [])
  | some rs =>
    let results := rs.map (evalOutcome building financial_details today)
    let pass_count := results.countP (fun o => o.status = RuleStatus.pass)
    let compliance_score :=
      if rs.isEmpty then 0 else ((pass_count : ℚ) / (rs.length : ℚ)) * 100
    (compliance_score, results)

/-! ## ml_models.py -/

/-- `classify_risk_category` from ml_models.py. -/
def classify_risk_category (bhi : ℚ) : String :=
  if bhi ≥ 80 then "Low" else if bhi ≥ 50 then "Medium" else "High"

/-- `pd.Series.value_counts().to_dict()`: occurrence count per distinct
label (pandas orders by descending count; the dictionary ordering is not
modelled — labels are listed in first-occurrence order). -/
def valueCounts (l : List String) : List (String × ℕ) :=
  l.dedup.map (fun s => (s, l.count s))

/-- The risk-classifier slice of the `train_ml_models` result bundle. -/
structure MLRiskResults (C : Type) where
  risk_classifier : Option C
  class_distribution : List (String × ℕ)
deriving Repr

/-- The risk-classifier part of `train_ml_models` from ml_models.py.
`X` is the numeric feature matrix (one row per sample) and `y_bhi` the
aligned BHI target series; `clfTrainer` abstracts the call
`train_risk_classifier(X, y_risk)` together with the model fitting it
performs — `Except.error` models an exception raised inside it, which the
`try/except` catches, leaving the classifier unset. -/
def train_ml_models_risk {C : Type} (X : List (List ℚ)) (y_bhi : List ℚ)
    (clfTrainer : Except String C) : MLRiskResults C :=
  let y_risk := y_bhi.map classify_risk_category
  let unique_classes := y_risk.dedup
  let class_counts := valueCounts y_risk
  if unique_classes.length ≥ 2 ∧ X.length ≥ 4 then
    match clfTrainer with
    | .ok clf => { risk_classifier := some clf, class_distribution := class_counts }
    | .error _ => { risk_classifier := none, class_distribution := class_counts }
  else
    { risk_classifier := none
      class_distribution := if class_counts.length > 0 then class_counts else [] }

/-! ## Claim-side (spec-worded) definitions for refinement statements -/

/-- Collection rate as the amended C3 claim words it: `100 × collected /
expected` when the (NaN-resolved) expected amount is nonzero, else 0. -/
def collectionRateSpec (expected collected : ℚ) : ℚ :=
  if expected = 0 then 0 else collected / expected * 100

/-- Age score as the C5 claim words it: `max(0, 100 − 1.5·age)`. -/
def ageScoreSpec (age : ℚ) : ℚ := max 0 (100 - 1.5 * age)

/-- Audit-rating score as the C5 claim words it: A=100, B=80, C=50, D=20,
F=0, unknown or missing rating → 0. -/
def ratingScoreSpec (rating : Option SVal) : ℚ :=
  match rating with
  | some (SVal.strS s) =>
    if s = "A" then 100 else if s = "B" then 80 else if s = "C" then 50
    else if s = "D" then 20 else if s = "F" then 0 else 0
  | _ => 0

/-- Repair score as the C5 claim words it:
`max(0, 100 − 5·open − 20·high_severity_open)`. -/
def repairScoreSpec (openIssues highSeverityOpen : ℕ) : ℚ :=
  max 0 (100 - 5 * (openIssues : ℚ) - 20 * (highSeverityOpen : ℚ))

/-! ## Concrete inputs for counterexamples and witnesses -/

/-- A building whose expected maintenance is negative (−100) with positive
collection (100). -/
def bNegExpected : Building :=
  { building_id := "B1",
    monthly_maintenance_expected := some (NumVal.numN (-100)),
    monthly_maintenance_collected := some (NumVal.numN 100) }

/-- A building with a positive expected maintenance (200) and collected
amount 150. -/
def bPosExpected : Building :=
  { building_id := "B1",
    monthly_maintenance_expected := some (NumVal.numN 200),
    monthly_maintenance_collected := some (NumVal.numN 150) }

/-- A building whose `year_built` cell holds NaN, with 10 flats and a
current fund of 5000. -/
def bNanYear : Building :=
  { building_id := "B1",
    year_built := some NumVal.nanN,
    total_flats := some (NumVal.numN 10),
    current_fund := some (NumVal.numN 5000) }

/-- A building with no `year_built` column at all, with 10 flats and a
current fund of 5000. -/
def bAbsentYear : Building :=
  { building_id := "B1",
    total_flats := some (NumVal.numN 10),
    current_fund := some (NumVal.numN 5000) }

/-- The FIRE_SAFETY rule as it appears in the rules document. -/
def fireRule : Rule :=
  { id := "FIRE_SAFETY", description := "Annual fire safety inspection",
    parameters := none }

/-- A building whose fire-safety inspection parses to day 635 (365 days
before day 1000). -/
def bFire365 : Building :=
  { building_id := "B1",
    last_fire_safety := some (DateVal.strD "2025-01-01" (some 635)) }

/-- A building whose fire-safety inspection parses to day 634 (366 days
before day 1000). -/
def bFire366 : Building :=
  { building_id := "B1",
    last_fire_safety := some (DateVal.strD "2025-01-01" (some 634)) }

/-- A building with no fire-safety inspection date column. -/
def bNoFireDate : Building := { building_id := "B1" }

/-- A RESERVE_FUND rule whose `parameters` key is absent, so its
evaluation raises `KeyError` inside the rule body. -/
def rfRule : Rule :=
  { id := "RESERVE_FUND", description := "Maintain reserve fund", parameters := none }

/-- A WASTE_SEGREGATION rule. -/
def wasteRule : Rule :=
  { id := "WASTE_SEGREGATION", description := "Waste segregation", parameters := none }

/-- A rule whose id matches none of the five known rule ids. -/
def unknownRule : Rule :=
  { id := "SOLAR_PANELS", description := "Solar panels", parameters := none }

/-- A building with audit rating "A", built in 2021 (age 5 in 2026). -/
def bRatingA : Building :=
  { building_id := "B1",
    year_built := some (NumVal.numN 2021),
    structural_audit_rating := some (SVal.strS "A") }

/-! ## Helper lemmas -/

theorem getNum_some (v : NumVal) (d : ℚ) : getNum (some v) d = v := rfl

theorem resolveNa_nan (r : ℚ) : NumVal.nanN.resolveNa r = r := rfl

theorem clamp_nonneg (x : ℚ) : 0 ≤ max 0 (min 100 x) := le_max_left 0 _

theorem clamp_le_hundred (x : ℚ) : max 0 (min 100 x) ≤ 100 :=
  max_le (by norm_num) (min_le_left _ _)

theorem ratio_mul_hundred_mem (p n : ℕ) (hpn : p ≤ n) :
    0 ≤ ((p : ℚ) / (n : ℚ)) * 100 ∧ ((p : ℚ) / (n : ℚ)) * 100 ≤ 100 := by
  constructor
  · positivity
  · rcases Nat.eq_zero_or_pos n with h0 | hpos
    · simp [h0]
    · have hn : (0 : ℚ) < n := by exact_mod_cast hpos
      have h1 : (p : ℚ) / n ≤ 1 := by
        rw [div_le_one hn]
        exact_mod_cast hpn
      calc ((p : ℚ) / n) * 100 ≤ 1 * 100 := by
            exact mul_le_mul_of_nonneg_right h1 (by norm_num)
        _ = 100 := by norm_num

theorem evalOutcome_rule (b : Building) (fin : Option ℚ) (today : Int) (r : Rule) :
    (evalOutcome b fin today r).rule = r.description := by
  unfold evalOutcome
  rcases hx : evalRuleExcept b fin today r with e | ⟨c, d⟩
  · simp
  · cases c <;> simp

/-! ## Theorems for the claims -/

/-- C1: For every valid input, the scores returned by
`calculate_financial_health`, `calculate_structural_health`,
`calculate_people_score`, `calculate_bhi`, and `check_nmmc_compliance`
lie in the interval [0,100]. -/
theorem c1_all_scores_within_range :
    (∀ b tx res, 0 ≤ (calculate_financial_health b tx res).1 ∧
      (calculate_financial_health b tx res).1 ≤ 100)
  ∧ (∀ b rs, 0 ≤ (calculate_structural_health b rs).1 ∧
      (calculate_structural_health b rs).1 ≤ 100)
  ∧ (∀ b res, 0 ≤ (calculate_people_score b res).1 ∧
      (calculate_people_score b res).1 ≤ 100)
  ∧ (∀ f s p, 0 ≤ calculate_bhi f s p ∧ calculate_bhi f s p ≤ 100)
  ∧ (∀ b rules fin today, 0 ≤ (check_nmmc_compliance b rules fin today).1 ∧
      (check_nmmc_compliance b rules fin today).1 ≤ 100) := by
  refine ⟨?_, ?_, ?_, ?_, ?_⟩
  · intro b tx res
    unfold calculate_financial_health
    split
    · norm_num
    · exact ⟨clamp_nonneg _, clamp_le_hundred _⟩
  · intro b rs
    unfold calculate_structural_health
    split
    · norm_num
    · exact ⟨clamp_nonneg _, clamp_le_hundred _⟩
  · intro b res
    unfold calculate_people_score
    split
    · norm_num
    · dsimp only
      split
      · norm_num
      · exact ⟨clamp_nonneg _, clamp_le_hundred _⟩
  · intro f s p
    unfold calculate_bhi
    exact ⟨clamp_nonneg _, clamp_le_hundred _⟩
  · intro b rules fin today
    unfold check_nmmc_compliance
    match rules with
    | none => norm_num
    | some rs =>
      simp only
      split
      · norm_num
      · exact ratio_mul_hundred_mem _ _
          (le_trans (List.countP_le_length _)
            (le_of_eq (List.length_map _ _)))

/-- C2: For every triple of sub-scores, the composite index equals
0.5·financial + 0.3·structural + 0.2·people clamped to [0,100], and the
tier/color is green for index ≥ 80, orange for 50 ≤ index < 80, and red
for index < 50; in particular (financial=90, structural=70, people=60)
yields index 78 and tier orange. -/
theorem c2_bhi_formula_and_tier :
    (∀ f s p : ℚ, calculate_bhi f s p =
      max 0 (min 100 (0.5 * f + 0.3 * s + 0.2 * p)))
  ∧ (∀ x : ℚ, get_bhi_color x =
      if x ≥ 80 then "green" else if x ≥ 50 then "orange" else "red")
  ∧ calculate_bhi 90 70 60 = 78
  ∧ get_bhi_color 78 = "orange" := by
  refine ⟨?_, ?_, ?_, ?_⟩
  · intro f s p
    simp [calculate_bhi, BHI_WEIGHTS]
    ring_nf
  · intro x
    simp [get_bhi_color, BHI_COLOR_THRESHOLDS]
  · simp [calculate_bhi, BHI_WEIGHTS]
    norm_num [min_def, max_def]
  · simp [get_bhi_color, BHI_COLOR_THRESHOLDS]
    norm_num

/-- C3 counterexample: the claim says the collection rate is 0 whenever
`monthly_maintenance_expected ≤ 0`, but for expected = −100 and
collected = 100 the code divides and reports −100, not 0 (the code's
guard tests `== 0`, not `≤ 0`). -/
theorem c3_counterexample :
    ((calculate_financial_health bNegExpected [] []).2.map
      FinancialDetails.collection_rate) = some (-100)
  ∧ (getNum bNegExpected.monthly_maintenance_expected 0).resolveNa 0 ≤ 0
  ∧ (-100 : ℚ) ≠ 0 := by
  refine ⟨?_, by norm_num [bNegExpected, getNum, NumVal.resolveNa], by norm_num⟩
  simp [calculate_financial_health, bNegExpected, getNum, NumVal.resolveNa]

/-- C3 (amended): for every non-empty building, the collection rate in
the details of `calculate_financial_health` equals 100 × collected /
expected when the NaN-resolved expected amount is nonzero, and 0 exactly
when it is zero (missing or NaN expected resolves to 0); negative
expected amounts divide like any other nonzero value. -/
theorem c3_collection_rate (b : Building) (tx : List Transaction)
    (res : List Resident) (h : b.empty = false) :
    ((calculate_financial_health b tx res).2.map FinancialDetails.collection_rate)
      = some (collectionRateSpec
          ((getNum b.monthly_maintenance_expected 0).resolveNa 0)
          ((getNum b.monthly_maintenance_collected 0).resolveNa 0)) := by
  simp [calculate_financial_health, collectionRateSpec, h]

/-- Witness for `c3_collection_rate` at a concrete building
(expected 200, collected 150 → rate 75). -/
theorem c3_collection_rate_witness :
    ((calculate_financial_health bPosExpected [] []).2.map
      FinancialDetails.collection_rate) = some 75 := by
  have h := c3_collection_rate bPosExpected [] [] rfl
  rw [h]
  norm_num [bPosExpected, collectionRateSpec, getNum, NumVal.resolveNa]

/-- C4 counterexample: the claim says a NaN `year_built` gives reserve
ratio 0, but the code replaces NaN by `CURRENT_YEAR` (not 0), so a
building with NaN year, 10 flats and 5000 of funds gets ratio
5000 / (10·500·1) = 1 ≠ 0. -/
theorem c4_counterexample :
    ((calculate_financial_health bNanYear [] []).2.map
      FinancialDetails.reserve_ratio) = some 1
  ∧ bNanYear.year_built = some NumVal.nanN
  ∧ (1 : ℚ) ≠ 0 := by
  refine ⟨?_, rfl, by norm_num⟩
  simp [calculate_financial_health, bNanYear, getNum, NumVal.resolveNa,
    CURRENT_YEAR, MIN_RESERVE_PER_FLAT_PER_YEAR]
  norm_num

/-- C4 (amended): for every non-empty building, an absent `year_built`
column defaults to 0, which the code treats as invalid, so the reserve
ratio is 0; a NaN `year_built`, however, is replaced by `CURRENT_YEAR`
(age 0), so the ratio is total funds / (total_flats · 500) when
total_flats > 0, and 0 when total_flats ≤ 0. -/
theorem c4_reserve_ratio_missing_year (b : Building) (tx : List Transaction)
    (res : List Resident) (h : b.empty = false) :
    (b.year_built = none →
      ((calculate_financial_health b tx res).2.map FinancialDetails.reserve_ratio)
        = some 0)
  ∧ (b.year_built = some NumVal.nanN →
      ((calculate_financial_health b tx res).2.map FinancialDetails.reserve_ratio)
        = some (
          let tf := (getNum b.total_flats 0).resolveNa 0
          let funds := (getNum b.current_fund 0).resolveNa 0 +
            (getNum b.reserve_fund 0).resolveNa 0
          if tf ≤ 0 then 0 else funds / (tf * MIN_RESERVE_PER_FLAT_PER_YEAR))) := by
  constructor
  · intro hyb
    simp [calculate_financial_health, h, hyb, getNum, NumVal.resolveNa]
  · intro hyb
    simp only [calculate_financial_health, h, hyb, getNum_some, resolveNa_nan,
      Bool.false_eq_true, if_false, CURRENT_YEAR, MIN_RESERVE_PER_FLAT_PER_YEAR]
    by_cases htf : (getNum b.total_flats 0).resolveNa 0 ≤ 0
    · rw [if_pos (Or.inr htf), if_pos htf]
      simp
    · have htf2 : (0 : ℚ) < (getNum b.total_flats 0).resolveNa 0 := lt_of_not_le htf
      have hcond : ¬((2026 : ℚ) ≤ 0 ∨ (getNum b.total_flats 0).resolveNa 0 ≤ 0) := by
        push_neg
        exact ⟨by norm_num, htf2⟩
      have hmax : max (1 : ℚ) (2026 - 2026) = 1 := by norm_num
      rw [hmax]
      have hpos : (0 : ℚ) < (getNum b.total_flats 0).resolveNa 0 * 500 * 1 := by
        positivity
      rw [if_pos hpos, if_neg hcond, if_neg htf]
      simp

/-- Witness for `c4_reserve_ratio_missing_year` at concrete buildings:
absent year → ratio 0; NaN year with 10 flats and 5000 funds → ratio 1. -/
theorem c4_reserve_ratio_missing_year_witness :
    ((calculate_financial_health bAbsentYear [] []).2.map
      FinancialDetails.reserve_ratio) = some 0
  ∧ ((calculate_financial_health bNanYear [] []).2.map
      FinancialDetails.reserve_ratio) = some 1 := by
  constructor
  · exact (c4_reserve_ratio_missing_year bAbsentYear [] [] rfl).1 rfl
  · have h := (c4_reserve_ratio_missing_year bNanYear [] [] rfl).2 rfl
    rw [h]
    norm_num [bNanYear, getNum, NumVal.resolveNa, MIN_RESERVE_PER_FLAT_PER_YEAR]

/-- C5: For every non-empty building with a valid (positive, non-NaN)
construction year and an already-uppercase (or missing) audit rating, the
structural score equals 0.2·age_score + 0.5·audit_rating_score +
0.3·repair_score clamped to [0,100], where age_score = max(0, 100 −
1.5·age), the rating maps A=100/B=80/C=50/D=20/F=0 with unknown or
missing rating → 0, and repair_score = max(0, 100 − 5·open_issues −
20·high_severity_open).  The witness checks the claimed instance: rating
"A", age 5, no open repairs scores exactly 98.5. -/
theorem c5_structural_score_formula (b : Building) (repairs : List Repair)
    (h : b.empty = false) (y : ℚ) (hy : b.year_built = some (NumVal.numN y))
    (hypos : 0 < y)
    (hrating : b.structural_audit_rating = none
      ∨ b.structural_audit_rating = some SVal.nanS
      ∨ ∃ s, b.structural_audit_rating = some (SVal.strS s) ∧ strUpper s = s) :
    (calculate_structural_health b repairs).1 =
      max 0 (min 100
        (0.2 * ageScoreSpec (CURRENT_YEAR - y)
         + 0.5 * ratingScoreSpec b.structural_audit_rating
         + 0.3 * repairScoreSpec
             ((repairs.filter (fun r => r.building_id = b.building_id)).filter
               (fun r => r.status = "Open")).length
             ((repairs.filter (fun r => r.building_id = b.building_id)).filter
               (fun r => r.status = "Open" ∧ r.severity = "High")).length)) := by
  have wa : STRUCTURAL_WEIGHTS "age" = 1 / 5 := by
    simp [STRUCTURAL_WEIGHTS]; norm_num
  have wb : STRUCTURAL_WEIGHTS "audit_rating" = 1 / 2 := by
    simp [STRUCTURAL_WEIGHTS]; norm_num
  have wc : STRUCTURAL_WEIGHTS "repairs" = 3 / 10 := by
    simp [STRUCTURAL_WEIGHTS]; norm_num
  simp only [calculate_structural_health, h, Bool.false_eq_true, if_false, hy,
    getNum_some, wa, wb, wc, ageScoreSpec, repairScoreSpec]
  rw [if_neg (not_le.mpr hypos)]
  rcases hrating with hr | hr | hr
  · rw [hr]
    simp only [Option.getD_some, Option.getD_none, ratingScoreSpec, if_true]
    ring_nf
  · rw [hr]
    simp only [Option.getD_some, ratingScoreSpec, if_true]
    ring_nf
  · obtain ⟨s, hs, hup⟩ := hr
    rw [hs]
    simp only [Option.getD_some, ratingScoreSpec, hup]
    by_cases hse : s = ""
    · simp only [hse, if_pos rfl]
      simp
      ring_nf
    · rw [if_neg hse]
      simp only [AUDIT_RATING_MAP]
      ring_nf

/-- Witness for `c5_structural_score_formula`: the building with rating
"A", age 5 (built 2021) and no repairs scores exactly 98.5 = 197/2. -/
theorem c5_structural_score_formula_witness :
    (calculate_structural_health bRatingA []).1 = 197 / 2 := by
  have h := c5_structural_score_formula bRatingA [] rfl 2021 rfl (by norm_num)
    (Or.inr (Or.inr ⟨"A", rfl, rfl⟩))
  rw [h]
  norm_num [ageScoreSpec, ratingScoreSpec, repairScoreSpec, bRatingA,
    CURRENT_YEAR, min_def, max_def]

/-- C6: For every building, the FIRE_SAFETY rule passes if and only if
the number of days since the last fire-safety inspection is in [0,365]
(the status is Pass when 0 ≤ today − d ≤ 365 and Fail otherwise, so 365
days ago passes and 366 fails), and a missing (absent/NaN/empty-string)
or unparseable inspection date yields a Fail outcome — never an Error —
with an explanatory detail string. -/
theorem c6_fire_safety_rule (b : Building) (fin : Option ℚ) (today : Int)
    (r : Rule) (hid : r.id = "FIRE_SAFETY") :
    (∀ s d, b.last_fire_safety = some (DateVal.strD s (some d)) → s ≠ "" →
      (evalOutcome b fin today r).status =
        (if 0 ≤ today - d ∧ today - d ≤ 365 then RuleStatus.pass
         else RuleStatus.fail))
  ∧ ((b.last_fire_safety = none ∨ b.last_fire_safety = some DateVal.nanD
      ∨ (∃ pd, b.last_fire_safety = some (DateVal.strD "" pd))) →
      evalOutcome b fin today r =
        { rule := r.description, status := RuleStatus.fail,
          details := "No fire safety inspection date found." })
  ∧ (∀ s, b.last_fire_safety = some (DateVal.strD s none) → s ≠ "" →
      evalOutcome b fin today r =
        { rule := r.description, status := RuleStatus.fail,
          details := "Invalid date format: " ++ s }) := by
  refine ⟨?_, ?_, ?_⟩
  · intro s d hd hs
    have e1 : evalRuleExcept b fin today r = Except.ok
        (decide (today - d ≤ 365 ∧ today - d ≥ 0),
         "Last inspection: " ++ toString d ++ " (" ++ toString (today - d) ++
           " days ago)") := by
      unfold evalRuleExcept
      rw [hid, if_pos rfl, hd]
      simp only [Option.getD_some]
      rw [if_neg hs]
    rcases Bool.eq_false_or_eq_true (decide (today - d ≤ 365 ∧ today - d ≥ 0))
      with hb | hb
    · have hc : 0 ≤ today - d ∧ today - d ≤ 365 :=
        ⟨(of_decide_eq_true hb).2, (of_decide_eq_true hb).1⟩
      rw [if_pos hc]
      unfold evalOutcome
      rw [e1, hb]
    · have hc : ¬(0 ≤ today - d ∧ today - d ≤ 365) :=
        fun hx => of_decide_eq_false hb ⟨hx.2, hx.1⟩
      rw [if_neg hc]
      unfold evalOutcome
      rw [e1, hb]
  · rintro (hd | hd | ⟨pd, hd⟩) <;>
      simp [evalOutcome, evalRuleExcept, hid, hd]
  · intro s hd hs
    simp [evalOutcome, evalRuleExcept, hid, hd, hs]

/-- Witness for `c6_fire_safety_rule`: with today = 1000, an inspection
on day 635 (365 days ago) passes, day 634 (366 days ago) fails, and a
missing date fails with the explanatory detail. -/
theorem c6_fire_safety_rule_witness :
    (evalOutcome bFire365 none 1000 fireRule).status = RuleStatus.pass
  ∧ (evalOutcome bFire366 none 1000 fireRule).status = RuleStatus.fail
  ∧ evalOutcome bNoFireDate none 1000 fireRule =
      { rule := "Annual fire safety inspection", status := RuleStatus.fail,
        details := "No fire safety inspection date found." } := by
  refine ⟨?_, ?_, ?_⟩
  · have h := (c6_fire_safety_rule bFire365 none 1000 fireRule rfl).1
      "2025-01-01" 635 rfl (by decide)
    rw [h]
    norm_num
  · have h := (c6_fire_safety_rule bFire366 none 1000 fireRule rfl).1
      "2025-01-01" 634 rfl (by decide)
    rw [h]
    norm_num
  · exact (c6_fire_safety_rule bNoFireDate none 1000 fireRule rfl).2.1 (Or.inl rfl)

/-- C7: For every rule list and building, an exception raised inside the
evaluation of one compliance rule (modelled by `evalRuleExcept` returning
`Except.error`) is caught at that rule's boundary and recorded as an
Error outcome carrying the error message, and the evaluation of every
other rule in the list is unaffected (replacing the bad rule changes no
other outcome, and one outcome is still produced per rule). -/
theorem c7_per_rule_error_isolation (b : Building) (fin : Option ℚ) (today : Int)
    (rs : List Rule) (j : ℕ) (r : Rule) (hj : rs[j]? = some r)
    (e : String) (he : evalRuleExcept b fin today r = Except.error e) :
    ((check_nmmc_compliance b (some rs) fin today).2[j]? =
      some { rule := r.description, status := RuleStatus.error,
             details := "Could not check rule: " ++ e })
  ∧ (∀ r' : Rule, ∀ i : ℕ, i ≠ j →
      (check_nmmc_compliance b (some (rs.set j r')) fin today).2[i]? =
      (check_nmmc_compliance b (some rs) fin today).2[i]?)
  ∧ (check_nmmc_compliance b (some rs) fin today).2.length = rs.length := by
  refine ⟨?_, ?_, by simp [check_nmmc_compliance]⟩
  · unfold check_nmmc_compliance
    simp only [List.getElem?_map, hj, Option.map_some']
    unfold evalOutcome
    rw [he]
  · intro r2 i hij
    unfold check_nmmc_compliance
    simp only [List.getElem?_map]
    rw [List.getElem?_set_ne (by omega)]

/-- Witness for `c7_per_rule_error_isolation`: a RESERVE_FUND rule with
no `parameters` key raises `KeyError`, yielding an Error outcome at its
own position, while the outcome of the preceding FIRE_SAFETY rule is the
same whatever rule stands at position 1. -/
theorem c7_per_rule_error_isolation_witness :
    (check_nmmc_compliance bNoFireDate (some [fireRule, rfRule]) (some 1) 1000).2[1]? =
      some { rule := "Maintain reserve fund", status := RuleStatus.error,
             details := "Could not check rule: parameters" }
  ∧ (check_nmmc_compliance bNoFireDate
      (some ([fireRule, rfRule].set 1 wasteRule)) (some 1) 1000).2[0]? =
    (check_nmmc_compliance bNoFireDate (some [fireRule, rfRule]) (some 1) 1000).2[0]? := by
  have h := c7_per_rule_error_isolation bNoFireDate (some 1) 1000
    [fireRule, rfRule] 1 rfRule rfl "parameters" rfl
  exact ⟨h.1, h.2.1 wasteRule 0 (by decide)⟩

/-- C8: For every rule list and building, `check_nmmc_compliance` returns
a compliance score equal to 100 × pass_count / total_rule_count (0 when
the rule list is empty or the rules document is falsy) together with one
outcome record — rule description, a status among Pass/Fail/Error, and a
detail string — per rule, in the order the rules appear in the list. -/
theorem c8_compliance_score_and_outcomes (b : Building) (fin : Option ℚ)
    (today : Int) (rs : List Rule) :
    ((check_nmmc_compliance b (some rs) fin today).2 =
      rs.map (evalOutcome b fin today))
  ∧ (check_nmmc_compliance b (some rs) fin today).2.length = rs.length
  ∧ (check_nmmc_compliance b (some rs) fin today).1 =
      (((rs.map (evalOutcome b fin today)).countP
          (fun o => o.status = RuleStatus.pass) : ℚ) / (rs.length : ℚ)) * 100
  ∧ (∀ i : ℕ, ((check_nmmc_compliance b (some rs) fin today).2[i]?).map Outcome.rule
      = (rs[i]?).map Rule.description)
  ∧ check_nmmc_compliance b none fin today = (0, [])
  ∧ (check_nmmc_compliance b (some []) fin today).1 = 0
  ∧ (∀ o ∈ (check_nmmc_compliance b (some rs) fin today).2,
      o.status = RuleStatus.pass ∨ o.status = RuleStatus.fail ∨
        o.status = RuleStatus.error) := by
  refine ⟨rfl, by simp [check_nmmc_compliance], ?_, ?_, rfl, rfl, ?_⟩
  · unfold check_nmmc_compliance
    cases rs with
    | nil => simp
    | cons r rest => simp
  · intro i
    unfold check_nmmc_compliance
    simp only [List.getElem?_map, Option.map_map]
    cases rs[i]? with
    | none => rfl
    | some r => simp [evalOutcome_rule]
  · intro o _
    cases o.status
    · exact Or.inl rfl
    · exact Or.inr (Or.inl rfl)
    · exact Or.inr (Or.inr rfl)

/-- C10: For every rule whose id matches none of the five known rule ids,
`check_nmmc_compliance` records a Fail outcome with an empty detail
string (not an Error), and that rule still counts in the denominator of
the compliance score, lowering it (appending such a rule divides the same
pass count by total + 1, which never exceeds the original score). -/
theorem c10_unknown_rule_fails_and_counts (b : Building) (fin : Option ℚ)
    (today : Int) (r : Rule) (h1 : r.id ≠ "FIRE_SAFETY")
    (h2 : r.id ≠ "STRUCT_AUDIT") (h3 : r.id ≠ "RESERVE_FUND")
    (h4 : r.id ≠ "WASTE_SEGREGATION") (h5 : r.id ≠ "SEWAGE_SYSTEM")
    (rs : List Rule) :
    evalOutcome b fin today r =
      { rule := r.description, status := RuleStatus.fail, details := "" }
  ∧ (check_nmmc_compliance b (some (rs ++ [r])) fin today).1 =
      (((rs.map (evalOutcome b fin today)).countP
          (fun o => o.status = RuleStatus.pass) : ℚ) / ((rs.length : ℚ) + 1)) * 100
  ∧ (check_nmmc_compliance b (some (rs ++ [r])) fin today).1 ≤
      (check_nmmc_compliance b (some rs) fin today).1 := by
  have hout : evalOutcome b fin today r =
      { rule := r.description, status := RuleStatus.fail, details := "" } := by
    simp [evalOutcome, evalRuleExcept, h1, h2, h3, h4, h5]
  have hscore : (check_nmmc_compliance b (some (rs ++ [r])) fin today).1 =
      (((rs.map (evalOutcome b fin today)).countP
          (fun o => o.status = RuleStatus.pass) : ℚ) / ((rs.length : ℚ) + 1)) * 100 := by
    unfold check_nmmc_compliance
    have hne : (rs ++ [r]).isEmpty = false := by simp
    simp only [hne, Bool.false_eq_true, if_false, List.map_append, List.map_cons,
      List.map_nil, List.countP_append, List.length_append]
    rw [hout]
    simp [List.countP_cons]
  refine ⟨hout, hscore, ?_⟩
  rw [hscore]
  unfold check_nmmc_compliance
  cases rs with
  | nil => simp
  | cons q rest =>
    simp only [List.isEmpty_cons, if_false, Bool.false_eq_true]
    have hlen : (0 : ℚ) < ((q :: rest).length : ℚ) := by
      exact_mod_cast Nat.succ_pos rest.length
    gcongr
    norm_num

/-- Witness for `c10_unknown_rule_fails_and_counts`: the unknown rule
"SOLAR_PANELS" fails with an empty detail, and appending it after the
FIRE_SAFETY rule cannot raise the compliance score. -/
theorem c10_unknown_rule_fails_and_counts_witness :
    evalOutcome bNoFireDate none 1000 unknownRule =
      { rule := "Solar panels", status := RuleStatus.fail, details := "" }
  ∧ (check_nmmc_compliance bNoFireDate (some ([fireRule] ++ [unknownRule])) none 1000).1 ≤
      (check_nmmc_compliance bNoFireDate (some [fireRule]) none 1000).1 := by
  have h := c10_unknown_rule_fails_and_counts bNoFireDate none 1000 unknownRule
    (by decide) (by decide) (by decide) (by decide) (by decide) [fireRule]
  exact ⟨h.1, h.2.2⟩

/-- C9: For every feature table with fewer than 4 samples or whose
derived risk labels contain fewer than 2 distinct classes, the model
trainer does not raise (the result is the same whatever the abstracted
classifier-fitting step would do, including raising): it leaves the risk
classifier unset (`none`) and records the class distribution in its
result bundle. -/
theorem c9_insufficient_data_leaves_classifier_unset {C : Type}
    (X : List (List ℚ)) (y_bhi : List ℚ) (t : Except String C)
    (h : X.length < 4 ∨ (y_bhi.map classify_risk_category).dedup.length < 2) :
    (train_ml_models_risk X y_bhi t).risk_classifier = none
  ∧ (train_ml_models_risk X y_bhi t).class_distribution =
      valueCounts (y_bhi.map classify_risk_category) := by
  have hcond : ¬(2 ≤ (y_bhi.map classify_risk_category).dedup.length ∧
      4 ≤ X.length) := by
    rcases h with h | h
    · exact fun hx => absurd hx.2 (Nat.not_le_of_lt h)
    · exact fun hx => absurd hx.1 (Nat.not_le_of_lt h)
  unfold train_ml_models_risk
  rw [if_neg hcond]
  refine ⟨rfl, ?_⟩
  cases hvc : valueCounts (y_bhi.map classify_risk_category) with
  | nil => simp
  | cons p rest => simp

/-- Witness for `c9_insufficient_data_leaves_classifier_unset`: one
sample with BHI 90 (a single "Low" class, fewer than 4 samples), even
with a classifier trainer that would raise. -/
theorem c9_insufficient_data_leaves_classifier_unset_witness :
    (train_ml_models_risk (C := Unit) [[1]] [90]
      (Except.error "boom")).risk_classifier = none
  ∧ (train_ml_models_risk (C := Unit) [[1]] [90]
      (Except.error "boom")).class_distribution = [("Low", 1)] := by
  have h := c9_insufficient_data_leaves_classifier_unset (C := Unit)
    [[1]] [90] (Except.error "boom") (Or.inl (by norm_num))
  refine ⟨h.1, ?_⟩
  rw [h.2]
  norm_num [valueCounts, classify_risk_category]

end BHD
